import Mathlib

/-!
Shallow embedding of the brand-palette / context-variation core of the
`ui-deployment` repository (files `app/utils/palette_utils.py`,
`app/core/context_engine.py`, `app/core/brand_extractor.py`,
`app/core/prompt_builder.py`), together with proofs about the embedded
functions.

Python `int` arithmetic is modelled with `Nat`; Python `float` arithmetic on
small integer-derived values (brightness, saturation) is modelled with `ℚ`,
which agrees with IEEE doubles on every comparison the code performs except
possibly at exact decimal boundary values.  Fallible code is modelled with
`Except`/`Option`.
-/

namespace UiDeployment

/-- RGB color: an ordered triple of channel intensities (Python 3-tuples of
ints, 0-255 each in practice). -/
abbrev Color := Nat × Nat × Nat

/-- Errors the embedded code can signal.  `indexError` is Python's built-in
IndexError (raised by out-of-range list subscription).  `invalidInputError`
is the error class named by the specification for an empty palette; the
repository never defines or raises it, and the constructor exists only so
the specified and the actual error can be compared. -/
inductive PyErr where
  | indexError
  | invalidInputError
  deriving DecidableEq, Repr

/-! ## `app/utils/palette_utils.py` -/

/-- Lowercase hexadecimal digit character for a value below 16 (the
convention of Python's `x` format code). -/
def hexDigitChar (n : Nat) : Char := Nat.digitChar n

/-- Python format spec `{:02x}`: lowercase hex digits of `n`, left-padded
with zeros to a minimum width of 2. -/
def format02x (n : Nat) : String :=
  let ds := Nat.toDigits 16 n
  String.mk (List.replicate (2 - ds.length) '0' ++ ds)

/-- `rgb_to_hex`: `'#{:02x}{:02x}{:02x}'.format(rgb[0], rgb[1], rgb[2])`. -/
def rgb_to_hex (rgb : Color) : String :=
  "#" ++ format02x rgb.1 ++ format02x rgb.2.1 ++ format02x rgb.2.2

/-- Value of one hexadecimal digit as accepted by Python `int(_, 16)`:
`0`-`9`, `a`-`f`, `A`-`F`. -/
def hexDigitVal (c : Char) : Option Nat :=
  if '0' ≤ c ∧ c ≤ '9' then some (c.toNat - 48)
  else if 'a' ≤ c ∧ c ≤ 'f' then some (c.toNat - 87)
  else if 'A' ≤ c ∧ c ≤ 'F' then some (c.toNat - 55)
  else none

/-- Helper for `parseHex`: most-significant-digit-first accumulation. -/
def parseHexCore : List Char → Nat → Option Nat
  | [], acc => some acc
  | c :: t, acc =>
    match hexDigitVal c with
    | none => none
    | some v => parseHexCore t (acc * 16 + v)

/-- Python `int(s, 16)` on a digit string: fails (ValueError) on the empty
string or on any non-digit character.  (The whitespace / sign / underscore
leniency of `int` is never exercised by the repository and is modelled as a
parse failure.) -/
def parseHex (cs : List Char) : Option Nat :=
  match cs with
  | [] => none
  | _ => parseHexCore cs 0

/-- Python list/string slice `l[i:j]` for `0 ≤ i ≤ j`. -/
def pySlice (l : List Char) (i j : Nat) : List Char := (l.drop i).take (j - i)

/-- `hex_to_rgb`: strips every leading `'#'` (Python `lstrip('#')`) and
parses the three 2-character slices at 0, 2, 4 with `int(_, 16)`. -/
def hex_to_rgb (s : String) : Option Color :=
  let t := s.data.dropWhile (· == '#')
  match parseHex (pySlice t 0 2), parseHex (pySlice t 2 4), parseHex (pySlice t 4 6) with
  | some r, some g, some b => some (r, g, b)
  | _, _, _ => none

/-- The sixteen lowercase hexadecimal digit characters, for stating which
strings count as well-formed lowercase hex colors. -/
def lowerHexDigits : List Char :=
  ['0', '1', '2', '3'] ++ ['4', '5', '6', '7'] ++ ['8', '9', 'a', 'b'] ++ ['c', 'd', 'e', 'f']

/-! ### Binary64 brightness

CPython evaluates `0.299 * r + 0.587 * g + 0.114 * b` in IEEE double
precision.  The rounding is observable: at the 8-bit colors whose exact
brightness is exactly 128 — `(117,127,162)`, `(128,128,128)`,
`(161,131,26)`, ... — the double result is `128 - 2^-46 < 128`, so the
program classifies them dark while the exact formula does not.  Every value
in this computation is a non-negative dyadic rational far from overflow and
subnormal range, so a double is carried as a pair `(n, e)` denoting
`n / 2^e` and each operation is the exact result rounded to 53 significant
bits with ties to even. -/

/-- Fuelled ⌊log2⌋ helper (structural recursion so that the kernel can
evaluate it). -/
def natLog2Aux : Nat → Nat → Nat
  | 0, _ => 0
  | f + 1, n => if 2 ≤ n then natLog2Aux f (n / 2) + 1 else 0

/-- ⌊log2 n⌋ for `n ≥ 1` (the fuel `n` always suffices). -/
def natLog2 (n : Nat) : Nat := natLog2Aux n n

/-- Number of binary digits of `n`. -/
def bitLen (n : Nat) : Nat := if n = 0 then 0 else natLog2 n + 1

/-- Round the dyadic value `d.1 / 2^d.2` to 53 significant bits, ties to
even: IEEE binary64 round-to-nearest on the normal range. -/
def dRound53 (d : Nat × Nat) : Nat × Nat :=
  let L := bitLen d.1
  if L ≤ 53 then d
  else
    let s := L - 53
    let q := d.1 / 2 ^ s
    let r := d.1 % 2 ^ s
    let half := 2 ^ (s - 1)
    let m := if r < half then q else if half < r then q + 1 else if q % 2 = 0 then q else q + 1
    if s ≤ d.2 then (m, d.2 - s) else (m * 2 ^ (s - d.2), 0)

/-- IEEE addition of two non-negative doubles: the exact sum, rounded once. -/
def dAdd (a b : Nat × Nat) : Nat × Nat :=
  let e := max a.2 b.2
  dRound53 (a.1 * 2 ^ (e - a.2) + b.1 * 2 ^ (e - b.2), e)

/-- The rational value of a dyadic pair. -/
def dval (d : Nat × Nat) : ℚ := (d.1 : ℚ) / (2 ^ d.2 : ℚ)

/-- The binary64 double nearest the literal `0.299`:
`5386305154335113 * 2^-54` (CPython's `Fraction(0.299)`). -/
def lit0299 : Nat × Nat := (5386305154335113, 54)

/-- The binary64 double nearest the literal `0.587`:
`2643612981266481 * 2^-52`. -/
def lit0587 : Nat × Nat := (2643612981266481, 52)

/-- The binary64 double nearest the literal `0.114`:
`8214565720323785 * 2^-56`. -/
def lit0114 : Nat × Nat := (8214565720323785, 56)

/-- The double-precision evaluation of `0.299*rgb[0] + 0.587*rgb[1] +
0.114*rgb[2]` exactly as CPython performs it: the 8-bit ints convert to
doubles exactly, each of the three products rounds once, and the two
additions (left-associated) round once each. -/
def float64Brightness (rgb : Color) : Nat × Nat :=
  let p1 := dRound53 (lit0299.1 * rgb.1, lit0299.2)
  let p2 := dRound53 (lit0587.1 * rgb.2.1, lit0587.2)
  let p3 := dRound53 (lit0114.1 * rgb.2.2, lit0114.2)
  dAdd (dAdd p1 p2) p3

/-- `get_color_brightness`: the perceived brightness the program computes —
the binary64 value of `0.299*r + 0.587*g + 0.114*b` — as a rational. -/
def get_color_brightness (rgb : Color) : ℚ := dval (float64Brightness rgb)

/-- `is_dark_color`: computed brightness strictly below the integer
threshold (default 128, per the source signature `threshold: int = 128`).
Python's float-int comparison is exact, and on non-negative dyadics
`n / 2^e < t` is the integer comparison `n < t * 2^e`
(`is_dark_color_decide_eq` below connects the two readings). -/
def is_dark_color (rgb : Color) (threshold : Nat := 128) : Bool :=
  decide ((float64Brightness rgb).1 < threshold * 2 ^ (float64Brightness rgb).2)

/-- The idealized exact-arithmetic reading of the brightness formula
`0.299*r + 0.587*g + 0.114*b`, as the specification's words state it; kept
separate for comparison with the binary64 value the program computes. -/
def specColorBrightness (rgb : Color) : ℚ :=
  0.299 * rgb.1 + 0.587 * rgb.2.1 + 0.114 * rgb.2.2

/-- Saturation as computed inside `get_brand_palette_info`:
`(max - min) / max` over the channels when `max > 0`, else `0`. -/
def saturation (c : Color) : ℚ :=
  let maxVal := max c.1 (max c.2.1 c.2.2)
  let minVal := min c.1 (min c.2.1 c.2.2)
  if 0 < maxVal then ((maxVal : ℚ) - (minVal : ℚ)) / (maxVal : ℚ) else 0

/-- One step of the primary-color selection loop of
`get_brand_palette_info`: the running `(primary_idx, max_saturation)` pair
is replaced only on a strictly larger saturation. -/
def primaryStep (best : Nat × ℚ) (p : Nat × Color) : Nat × ℚ :=
  if saturation p.2 > best.2 then (p.1, saturation p.2) else best

/-- The `for idx, color in enumerate(colors)` loop of
`get_brand_palette_info`, started from `primary_idx = 0`, `max_saturation = 0`. -/
def primaryFold (colors : List Color) : Nat × ℚ :=
  colors.enum.foldl primaryStep (0, 0)

/-- Final value of `primary_idx` in `get_brand_palette_info`. -/
def primaryIdx (colors : List Color) : Nat := (primaryFold colors).1

/-- One record of the `color_descriptions` list. -/
structure ColorDescription where
  rgb : Color
  hex : String
  brightness : ℚ
  is_dark : Bool
  deriving DecidableEq, Repr

/-- The palette-info dictionary.  `get_brand_palette_info` fills every key;
the built-in default palette of `extract_brand_info` carries only
`hex_colors`, `primary_hex` and `is_dark_palette`, so the keys it omits are
`Option`-valued here. -/
structure BrandPaletteDict where
  colors : Option (List Color)
  hex_colors : List String
  primary_color : Option Color
  primary_hex : String
  is_dark_palette : Bool
  color_descriptions : Option (List ColorDescription)
  deriving DecidableEq, Repr

/-- `get_brand_palette_info`.  On the empty list the subscription
`colors[primary_idx]` raises IndexError; otherwise every field is computed
as in the source (`sum(is_dark_color(c) for c in colors)` is the count of
dark colors, compared against `len(colors) / 2` by true division). -/
def get_brand_palette_info (colors : List Color) : Except PyErr BrandPaletteDict :=
  let hex_colors := colors.map rgb_to_hex
  let pidx := primaryIdx colors
  match colors.get? pidx, hex_colors.get? pidx with
  | some pc, some ph =>
    .ok
      { colors := some colors
        hex_colors := hex_colors
        primary_color := some pc
        primary_hex := ph
        is_dark_palette :=
          decide (((colors.countP (fun c => is_dark_color c) : ℚ)) > (colors.length : ℚ) / 2)
        color_descriptions := some ((colors.zip hex_colors).map (fun p =>
          { rgb := p.1
            hex := p.2
            brightness := get_color_brightness p.1
            is_dark := is_dark_color p.1 })) }
  | _, _ => .error .indexError

/-! ## CPython `set` semantics

`extract_brand_info` merges palettes with `list(set(a + b))[:5]`, so the
order of the merged colors is the iteration order of a CPython hash set,
not the insertion order.  The model below follows CPython's `setobject.c`
and `tuplehash` (CPython 3.8-3.12): open addressing over a power-of-two
table starting at size 8, probe recurrence `i = (i*5 + 1 + perturb) & mask`
with `perturb >>= 5`, a block of 9 linear probes whenever `i + 9 <= mask`,
growth to the first power of two above `4 * used` once `fill * 5 >= mask * 3`,
and iteration in ascending slot order.  Deleted-entry (dummy) handling is
omitted because the repository never removes elements from the set. -/

/-- 2^64, the modulus of CPython's `Py_uhash_t` arithmetic. -/
def u64 : Nat := 18446744073709551616

/-- Rotate a 64-bit value left by `n < 64` bits. -/
def rotl64 (x n : Nat) : Nat := (x * 2 ^ n) % u64 + x / 2 ^ (64 - n)

/-- CPython `hash` of a non-negative `int`: reduction modulo the Mersenne
prime 2^61 - 1. -/
def pyIntHash (n : Nat) : Nat := n % 2305843009213693951

/-- CPython `tuplehash` for a 3-tuple of non-negative ints (the xxHash-style
scheme of CPython >= 3.8, `_PyHASH_XXPRIME` constants, rotate-left 31). -/
def pyHashTriple (c : Color) : Nat :=
  let xxp1 : Nat := 11400714785074694791
  let xxp2 : Nat := 14029467366897019727
  let xxp5 : Nat := 2870177450012600261
  let step : Nat → Nat → Nat := fun acc lane =>
    (rotl64 ((acc + lane * xxp2) % u64) 31 * xxp1) % u64
  let acc := step (step (step xxp5 (pyIntHash c.1)) (pyIntHash c.2.1)) (pyIntHash c.2.2)
  let acc := (acc + Nat.xor 3 (Nat.xor xxp5 3527539)) % u64
  if acc = u64 - 1 then 1546275796 else acc

/-- A CPython set table: `none` is an unused slot. -/
abbrev SetTable := List (Option Color)

/-- Result of scanning one linear-probe block in `set_add_entry`. -/
inductive ScanResult where
  | foundUnused (j : Nat)
  | foundActive
  | next
  deriving DecidableEq, Repr

/-- The `do { ... } while (probes--)` block of `set_add_entry`: examine
slots `i, i+1, ..., i+count`, stopping at the first unused slot or at an
entry equal to `x`. -/
def scanAdd (t : SetTable) (x : Color) : Nat → Nat → ScanResult
  | i, count =>
    match t.getD i none with
    | none => .foundUnused i
    | some y =>
      if y = x then .foundActive
      else
        match count with
        | 0 => .next
        | count + 1 => scanAdd t x (i + 1) count

/-- The probe loop of `set_add_entry` (fuelled; CPython's loop always
terminates because the recurrence eventually hits every slot).  Returns the
updated table and whether a new entry was written. -/
def setAddProbe (x : Color) (t : SetTable) : Nat → Nat → Nat → SetTable × Bool
  | 0, _, _ => (t, false)
  | fuel + 1, i, perturb =>
    let mask := t.length - 1
    let probes := if i + 9 ≤ mask then 9 else 0
    match scanAdd t x i probes with
    | .foundUnused j => (t.set j (some x), true)
    | .foundActive => (t, false)
    | .next =>
      let perturb' := perturb / 32
      setAddProbe x t fuel ((i * 5 + 1 + perturb') % (mask + 1)) perturb'

/-- The probe loop of `set_insert_clean` (used during a resize): stop at the
first unused slot, no equality tests. -/
def scanClean (t : SetTable) : Nat → Nat → Option Nat
  | i, count =>
    match t.getD i none with
    | none => some i
    | some _ =>
      match count with
      | 0 => none
      | count + 1 => scanClean t (i + 1) count

/-- `set_insert_clean` (fuelled outer loop). -/
def insertCleanProbe (x : Color) (t : SetTable) : Nat → Nat → Nat → SetTable
  | 0, _, _ => t
  | fuel + 1, i, perturb =>
    let mask := t.length - 1
    let probes := if i + 9 ≤ mask then 9 else 0
    match scanClean t i probes with
    | some j => t.set j (some x)
    | none =>
      let perturb' := perturb / 32
      insertCleanProbe x t fuel ((i * 5 + 1 + perturb') % (mask + 1)) perturb'

/-- `set_insert_clean`, started like CPython: `i = hash & mask`, `perturb = hash`. -/
def insertClean (t : SetTable) (x : Color) : SetTable :=
  let h := pyHashTriple x
  insertCleanProbe x t 1000 (h % t.length) h

/-- `newsize = PySet_MINSIZE; while (newsize <= minused) newsize <<= 1;`
(fuelled doubling loop). -/
def growSize : Nat → Nat → Nat
  | 0, _ => 8
  | fuel + 1, minused => go fuel 8 minused
where
  go : Nat → Nat → Nat → Nat
    | 0, n, _ => n
    | fuel + 1, n, minused => if n ≤ minused then go fuel (2 * n) minused else n

/-- `set_table_resize`: allocate the grown empty table and re-insert the old
entries in ascending slot order with `set_insert_clean`. -/
def setResize (t : SetTable) (minused : Nat) : SetTable :=
  let newsize := growSize 64 minused
  (t.filterMap id).foldl insertClean (List.replicate newsize none)

/-- Number of used slots (`fill` = `used`: no dummies ever arise here). -/
def tableFill (t : SetTable) : Nat := (t.filterMap id).length

/-- `set_add_key`: probe/insert, then grow when `fill * 5 >= mask * 3`
(CPython resizes to `used * 4` for tables of at most 50000 entries). -/
def setAddKey (t : SetTable) (x : Color) : SetTable :=
  let h := pyHashTriple x
  match setAddProbe x t 1000 (h % t.length) h with
  | (t', true) =>
    let fill := tableFill t'
    if fill * 5 < (t'.length - 1) * 3 then t' else setResize t' (fill * 4)
  | (t', false) => t'

/-- `list(set(xs))`: build the set by adding the elements of `xs` in order
into a fresh 8-slot table, then list the entries in ascending slot order. -/
def pySetList (xs : List Color) : List Color :=
  (xs.foldl setAddKey (List.replicate 8 none)).filterMap id

/-! ## `app/core/brand_extractor.py` -/

/-- The fixed default palette used when neither image is supplied. -/
def defaultBrandPalette : BrandPaletteDict :=
  { colors := none
    hex_colors := ["#667eea", "#764ba2", "#f093fb"]
    primary_color := none
    primary_hex := "#667eea"
    is_dark_palette := false
    color_descriptions := none }

/-- `combined_colors = list(set(logo_colors[:3] + product_colors[:3]))[:5]`. -/
def combinedColors (logoColors productColors : List Color) : List Color :=
  (pySetList (logoColors.take 3 ++ productColors.take 3)).take 5

/-- The brand-info dictionary built by `extract_brand_info`. -/
structure BrandInfo where
  brand_name : String
  product_category : String
  has_logo : Bool
  has_product_image : Bool
  logo_colors : Option BrandPaletteDict
  primary_color : Option String
  product_colors : Option BrandPaletteDict
  brand_palette : BrandPaletteDict
  deriving DecidableEq, Repr

/-- `extract_brand_info`, with the image-decoding stage factored out: the
callers of `extract_dominant_colors(image, num_colors=5)` are modelled by
passing the extracted color list itself (`none` = the corresponding image
argument was `None`).  Palette analysis errors (only possible on an empty
color list) propagate. -/
def extract_brand_info (logoColors? productColors? : Option (List Color))
    (brandName? productCategory? : Option String) : Except PyErr BrandInfo := do
  let logoPalette? ← match logoColors? with
    | none => pure none
    | some cs => do pure (some (← get_brand_palette_info cs))
  let productPalette? ← match productColors? with
    | none => pure none
    | some cs => do pure (some (← get_brand_palette_info cs))
  let brandPalette ← match logoColors?, productColors? with
    | some lcs, some pcs => get_brand_palette_info (combinedColors lcs pcs)
    | some _, none => pure (logoPalette?.getD defaultBrandPalette)
    | none, some _ => pure (productPalette?.getD defaultBrandPalette)
    | none, none => pure defaultBrandPalette
  pure
    { brand_name := brandName?.getD "Brand"
      product_category := productCategory?.getD "Product"
      has_logo := logoColors?.isSome
      has_product_image := productColors?.isSome
      logo_colors := logoPalette?
      primary_color := logoPalette?.map (·.primary_hex)
      product_colors := productPalette?
      brand_palette := brandPalette }

/-- The keep-first deduplication of a list, written from the specification's
words ("insertion order of the deduplicated union") for comparison with the
hash-order `pySetList` the code actually produces. -/
def specInsertionDedup (l : List Color) : List Color :=
  l.foldl (fun acc x => if x ∈ acc then acc else acc ++ [x]) []

/-- Modelled from the spec: the merged color list as the specification
describes it, "the insertion order of the deduplicated union (logo colors
first, then product colors not already present)", capped to 5. -/
def specCombinedColors (logoColors productColors : List Color) : List Color :=
  (specInsertionDedup (logoColors.take 3 ++ productColors.take 3)).take 5

/-! ## `app/core/context_engine.py` -/

/-- Python `dict.get(key, default)` over a literal table (keys in the
repository's tables are distinct, so association-list lookup is exact). -/
def lookupD {α : Type} (table : List (String × α)) (key : String) (default : α) : α :=
  match table.find? (fun p => p.1 == key) with
  | some p => p.2
  | none => default

/-- The `poi_data` table of `_get_pois`. -/
def poiData : List (String × List String) :=
  [("Bangalore", ["cafes", "tech parks", "gardens", "breweries", "malls"]),
   ("Chennai", ["beaches", "temples", "marina", "shopping districts"]),
   ("Mumbai", ["marine drive", "malls", "beaches", "street markets"]),
   ("Delhi", ["monuments", "markets", "malls", "restaurants", "historical sites"]),
   ("Hyderabad", ["tech hubs", "biryani spots", "lakes", "monuments"]),
   ("Pune", ["colleges", "cafes", "hills", "restaurants"]),
   ("Kolkata", ["cultural centers", "markets", "sweets shops", "heritage sites"])]

/-- The fallback POI list of `_get_pois` for cities absent from the table. -/
def genericPois : List String := ["local attractions", "shopping areas", "restaurants"]

/-- `ContextEngine._get_pois`. -/
def get_pois (city : String) : List String := lookupD poiData city genericPois

/-- The `festivals` table of `_get_cultural_context`. -/
def festivalsTable : List (String × List String) :=
  [("winter", ["Christmas", "New Year", "Pongal", "Makar Sankranti"]),
   ("spring", ["Holi", "Ugadi", "Gudi Padwa"]),
   ("monsoon", ["Raksha Bandhan", "Independence Day", "Onam"]),
   ("autumn", ["Diwali", "Durga Puja", "Dussehra", "Navratri"])]

/-- The `city_culture` table of `_get_cultural_context`. -/
def cityCultureTable : List (String × String) :=
  [("Bangalore", "tech-savvy, café culture, cosmopolitan vibes"),
   ("Chennai", "traditional, coastal culture, filter coffee culture"),
   ("Mumbai", "fast-paced, bollywood, street food culture"),
   ("Delhi", "historical, diverse cuisine, shopping culture"),
   ("Hyderabad", "biryani culture, tech hub, historical heritage"),
   ("Pune", "educational hub, young crowd, café culture"),
   ("Kolkata", "artistic, literary, sweet culture, cultural festivals")]

/-- `ContextEngine._get_cultural_context`. -/
def get_cultural_context (city season : String) : String :=
  let seasonFestivals := lookupD festivalsTable season []
  let cityVibe := lookupD cityCultureTable city "vibrant local culture"
  let context := city ++ " culture: " ++ cityVibe ++ ". "
  if seasonFestivals.isEmpty then context
  else
    context ++ "Upcoming festivals: " ++ String.intercalate ", " (seasonFestivals.take 2) ++ "."

/-- The `vibes` table of `_get_local_vibes`. -/
def vibesTable : List (String × String) :=
  [("Bangalore", "Bangalore monsoon vibes, tech-savvy millennials, café hoppers"),
   ("Chennai", "Chennai coastal vibes, traditional yet modern, beach lovers"),
   ("Mumbai", "Mumbai hustle, bollywood dreams, street food enthusiasts"),
   ("Delhi", "Delhi nightlife, historical charm, food explorers"),
   ("Hyderabad", "Hyderabad heritage, biryani lovers, tech professionals"),
   ("Pune", "Pune student life, young energy, weekend adventurers"),
   ("Kolkata", "Kolkata artistic soul, cultural enthusiasts, sweet lovers")]

/-- `ContextEngine._get_local_vibes`. -/
def get_local_vibes (city : String) : String :=
  lookupD vibesTable city (city ++ " local vibes and culture")

/-- The part of a base context that `create_context_variations` actually
reads: `base_context['weather']['description']` (used by the
"weather-specific" mood) and the city for identification.  All other keys of
the `get_context` dictionary are copied through unchanged by
`base_context.copy()` and never inspected, so they are represented opaquely
by this record as a whole. -/
structure BaseContext where
  city : String
  weatherDescription : String
  deriving DecidableEq, Repr

/-- The fixed `themes` list of `create_context_variations`. -/
def themes : List String :=
  ["morning energy", "afternoon relaxation", "evening social", "weekend vibes",
   "festive celebration", "local culture", "weather-specific", "POI-focused",
   "lifestyle", "aspirational"]

/-- One context variation: the copied base context plus the keys the loop
adds (`theme`, `variation_id`, `mood`). -/
structure ContextVariation where
  base : BaseContext
  theme : String
  variation_id : Nat
  mood : String
  deriving DecidableEq, Repr

/-- The `if/elif` chain assigning `variation["mood"]` from the theme. -/
def variationMood (theme : String) (base : BaseContext) : String :=
  if theme = "morning energy" then "energetic, fresh start, morning routine"
  else if theme = "afternoon relaxation" then "relaxed, leisure time, comfort"
  else if theme = "evening social" then "social, gathering, celebration"
  else if theme = "weekend vibes" then "fun, adventure, exploration"
  else if theme = "festive celebration" then "festive, joyful, celebration"
  else if theme = "local culture" then "cultural, traditional, local pride"
  else if theme = "weather-specific" then "weather-aware, " ++ base.weatherDescription
  else if theme = "POI-focused" then "location-specific, local hotspots"
  else if theme = "lifestyle" then "lifestyle-focused, aspirational"
  else "premium, aspirational, elevated"

/-- `ContextEngine.create_context_variations`: `for i in range(num_variations)`
(empty for a non-positive count), `theme = themes[i % len(themes)]`,
`variation_id = i + 1`. -/
def create_context_variations (base : BaseContext) (numVariations : Int := 10) :
    List ContextVariation :=
  (List.range numVariations.toNat).map fun i =>
    let theme := themes.get ⟨i % themes.length, Nat.mod_lt i (by decide)⟩
    { base := base, theme := theme, variation_id := i + 1, mood := variationMood theme base }

/-! ## `app/core/prompt_builder.py` -/

/-- Character-list version of Python's `startswith`. -/
def listStartsWith : List Char → List Char → Bool
  | [], _ => true
  | a :: as, s =>
    match s with
    | [] => false
    | b :: bs => a == b && listStartsWith as bs

/-- Helper for `strContains`: scan every suffix. -/
def listHasSub (pat : List Char) : List Char → Bool
  | [] => listStartsWith pat []
  | c :: t => listStartsWith pat (c :: t) || listHasSub pat t

/-- Python's substring test `pat in s`. -/
def strContains (s pat : String) : Bool := listHasSub pat.data s.data

/-- First character of a string, used to tell the fixed prompt clauses
apart. -/
def strHead? (s : String) : Option Char := s.data.head?

/-- Python `str.lower()`, restricted to the ASCII range the repository's
category keywords live in (the full Unicode case table is irrelevant to the
fixed lookup keys "beverage", "skincare", ...). -/
def pyLowerChar (c : Char) : Char :=
  if 'A' ≤ c ∧ c ≤ 'Z' then Char.ofNat (c.toNat + 32) else c

/-- ASCII `str.lower()` on a whole string. -/
def pyLower (s : String) : String := String.mk (s.data.map pyLowerChar)

/-- The weather dictionary as read by `_get_style_modifiers`
(`weather.get("main", "")`). -/
structure PromptWeather where
  main : Option String
  deriving DecidableEq, Repr

/-- The brand-info dictionary as read by `build_prompt`: `dict.get` with a
default is modelled by `Option.getD`, and the truthiness test on the
`brand_palette` value (`{}` default is falsy, a populated dict truthy) by
the `Option`. -/
structure PromptBrandInfo where
  brand_name : Option String
  product_category : Option String
  brand_palette : Option BrandPaletteDict
  deriving DecidableEq, Repr

/-- The context dictionary as read by `build_prompt` and
`_get_style_modifiers`. -/
structure PromptContext where
  city : Option String
  theme : Option String
  mood : Option String
  weather : Option PromptWeather
  time_of_day : Option String
  deriving DecidableEq, Repr

/-- `PromptBuilder._get_style_modifiers`. -/
def get_style_modifiers (b : PromptBrandInfo) (c : PromptContext) : String :=
  let productCategory := pyLower (b.product_category.getD "")
  let timeOfDay := c.time_of_day.getD ""
  let base :=
    if strContains productCategory "beverage" then "refreshing drink visual"
    else if strContains productCategory "skincare" || strContains productCategory "beauty" then
      "clean, minimal beauty style"
    else if strContains productCategory "food" then "appetizing, simple food visual"
    else if strContains productCategory "tech" then "modern, minimal tech style"
    else "simple lifestyle aesthetic"
  let extra : Option String :=
    match c.weather with
    | none => none
    | some w =>
      let mainWeather := w.main.getD ""
      if mainWeather = "Rain" then some "cozy feel"
      else if mainWeather = "Clear" then some "bright feel"
      else if mainWeather = "Clouds" then some "soft light"
      else none
  let extra : Option String :=
    match extra with
    | some e => some e
    | none =>
      if timeOfDay ≠ "" then
        if timeOfDay = "morning" then some "morning light"
        else if timeOfDay = "evening" then some "warm evening light"
        else if timeOfDay = "night" then some "night-time glow"
        else none
      else none
  match extra with
  | some e => base ++ ", " ++ e
  | none => base

/-- The clause of rendering rule 5: `f"using {primary_color} as the main brand color"`. -/
def clauseUsingColor (hx : String) : String :=
  "using " ++ hx ++ " as the main brand color"

/-- The `parts` list assembled by `PromptBuilder.build_prompt` before joining. -/
def buildPromptParts (b : PromptBrandInfo) (c : PromptContext) : List String :=
  let brandName := b.brand_name.getD "Brand"
  let productCategory := b.product_category.getD "product"
  let city := c.city.getD ""
  let theme := c.theme.getD ""
  let mood := c.mood.getD ""
  let primaryColor : Option String :=
    match b.brand_palette with
    | none => none
    | some pal =>
      match pal.hex_colors with
      | [] => none
      | h :: _ => some h
  let stylePhrase := get_style_modifiers b c
  (if city ≠ "" then
    ["Clean marketing poster for " ++ brandName ++ " " ++ productCategory ++ " in " ++ city]
   else
    ["Clean marketing poster for " ++ brandName ++ " " ++ productCategory]) ++
  ["the product is the main hero in the center, with space for a logo"] ++
  (if theme ≠ "" then ["inspired by " ++ theme] else []) ++
  (if mood ≠ "" then ["with a " ++ mood ++ " feel"] else []) ++
  (match primaryColor with
   | some pcol => if pcol ≠ "" then [clauseUsingColor pcol] else []
   | none => []) ++
  (if stylePhrase ≠ "" then [stylePhrase] else [])

/-- The fixed trailing sentence of `build_prompt`. -/
def trailingSentence : String :=
  ". High quality, clear composition, easy-to-read poster design"

/-- `PromptBuilder.build_prompt`: the parts joined with `", "`, then the
trailing sentence appended. -/
def build_prompt (b : PromptBrandInfo) (c : PromptContext) : String :=
  String.intercalate ", " (buildPromptParts b c) ++ trailingSentence

/-! ## General helper lemmas -/

theorem lookupD_eq_default {α : Type} (table : List (String × α)) (key : String) (d : α)
    (h : key ∉ table.map Prod.fst) : lookupD table key d = d := by
  unfold lookupD
  have hfind : table.find? (fun p => p.1 == key) = none := by
    rw [List.find?_eq_none]
    intro x hx
    simp only [beq_iff_eq]
    intro he
    exact h (he ▸ List.mem_map_of_mem Prod.fst hx)
  rw [hfind]

theorem strAppend_assoc (a b c : String) : (a ++ b) ++ c = a ++ (b ++ c) := by
  cases a with
  | mk l₁ =>
    cases b with
    | mk l₂ =>
      cases c with
      | mk l₃ =>
        show String.mk ((l₁ ++ l₂) ++ l₃) = String.mk (l₁ ++ (l₂ ++ l₃))
        rw [List.append_assoc]

/-! ## Claim C1 -/

/-- C1: for every base context and every `n ≥ 1`,
`create_context_variations` returns exactly `n` variations in generation
order; the i-th variation's theme is the fixed 10-entry theme list at index
`i mod 10` and its `variation_id` is `i + 1`, so the ids form the contiguous
sequence `1..n` and themes repeat with period 10 when `n > 10`. -/
theorem c1_variation_ids_and_themes (base : BaseContext) (n : Nat) (h : 1 ≤ n) :
    themes.length = 10 ∧
    (create_context_variations base (n : Int)).length = n ∧
    (create_context_variations base (n : Int)).map (fun v => v.variation_id) =
      (List.range n).map (fun i => i + 1) ∧
    (create_context_variations base (n : Int)).map (fun v => v.theme) =
      (List.range n).map (fun i => themes.get ⟨i % themes.length, Nat.mod_lt i (by decide)⟩) := by
  refine ⟨rfl, ?_, ?_, ?_⟩
  · simp [create_context_variations]
  · simp only [create_context_variations, Int.toNat_natCast, List.map_map]
    rfl
  · simp only [create_context_variations, Int.toNat_natCast, List.map_map]
    rfl

/-- Witness for C1 at `n = 12` and a concrete base context. -/
theorem c1_variation_ids_and_themes_witness :
    1 ≤ 12 ∧
    (themes.length = 10 ∧
     (create_context_variations ⟨"Bangalore", "light rain"⟩ ((12 : Nat) : Int)).length = 12 ∧
     (create_context_variations ⟨"Bangalore", "light rain"⟩ ((12 : Nat) : Int)).map
        (fun v => v.variation_id) = (List.range 12).map (fun i => i + 1) ∧
     (create_context_variations ⟨"Bangalore", "light rain"⟩ ((12 : Nat) : Int)).map
        (fun v => v.theme) =
       (List.range 12).map (fun i => themes.get ⟨i % themes.length, Nat.mod_lt i (by decide)⟩)) :=
  ⟨by decide, c1_variation_ids_and_themes ⟨"Bangalore", "light rain"⟩ 12 (by decide)⟩

/-! ## Claim C10 -/

/-- C10: `create_context_variations` with a non-positive count returns the
empty list without raising; no lower bound is enforced. -/
theorem c10_nonpositive_count_empty (base : BaseContext) (n : Int) (h : n ≤ 0) :
    create_context_variations base n = [] := by
  simp [create_context_variations, Int.toNat_eq_zero.mpr h]

/-- Witness for C10 at `n = -3`. -/
theorem c10_nonpositive_count_empty_witness :
    (-3 : Int) ≤ 0 ∧ create_context_variations ⟨"", ""⟩ (-3) = [] :=
  ⟨by decide, c10_nonpositive_count_empty ⟨"", ""⟩ (-3) (by decide)⟩

/-! ## Claim C4 -/

/-- C4: `extract_brand_info` called with neither image returns the fixed
default brand palette: hex list `[#667eea, #764ba2, #f093fb]`, primary hex
`#667eea`, dark flag `false`. -/
theorem c4_no_images_default_palette (brandName? productCategory? : Option String) :
    Except.map (fun bi => bi.brand_palette)
        (extract_brand_info none none brandName? productCategory?) =
      Except.ok defaultBrandPalette ∧
    defaultBrandPalette.hex_colors = ["#667eea", "#764ba2", "#f093fb"] ∧
    defaultBrandPalette.primary_hex = "#667eea" ∧
    defaultBrandPalette.is_dark_palette = false :=
  ⟨rfl, rfl, rfl, rfl⟩

/-! ## Claim C7 -/

/-- Counterexample to C7 as stated: for the unknown city "Atlantis" the POI
fallback is the fixed generic list, and none of its strings contains the
city's own name. -/
theorem c7_poi_fallback_lacks_city_name :
    "Atlantis" ∉ poiData.map Prod.fst ∧
    get_pois "Atlantis" = ["local attractions", "shopping areas", "restaurants"] ∧
    (get_pois "Atlantis").all (fun s => !(strContains s "Atlantis")) = true := by
  decide

/-- C7 (amended): for every city absent from the lookup tables the helpers
return total fallback values (never an error); the cultural-context and
local-vibe fallbacks contain (indeed start with) the city's own name, while
the POI fallback is the fixed generic list. -/
theorem c7_unknown_city_fallbacks (city season : String)
    (h1 : city ∉ poiData.map Prod.fst)
    (h2 : city ∉ cityCultureTable.map Prod.fst)
    (h3 : city ∉ vibesTable.map Prod.fst) :
    get_pois city = genericPois ∧
    (∃ rest, get_cultural_context city season = city ++ rest) ∧
    get_local_vibes city = city ++ " local vibes and culture" := by
  refine ⟨?_, ?_, ?_⟩
  · unfold get_pois
    exact lookupD_eq_default _ _ _ h1
  · unfold get_cultural_context
    rw [lookupD_eq_default _ _ _ h2]
    dsimp only
    split
    · exact ⟨_, by rw [strAppend_assoc, strAppend_assoc]⟩
    · exact ⟨_, by rw [strAppend_assoc, strAppend_assoc, strAppend_assoc,
        strAppend_assoc, strAppend_assoc]⟩
  · unfold get_local_vibes
    exact lookupD_eq_default _ _ _ h3

/-- Witness for the amended C7 at the unknown city "Atlantis". -/
theorem c7_unknown_city_fallbacks_witness :
    ("Atlantis" ∉ poiData.map Prod.fst ∧
     "Atlantis" ∉ cityCultureTable.map Prod.fst ∧
     "Atlantis" ∉ vibesTable.map Prod.fst) ∧
    (get_pois "Atlantis" = genericPois ∧
     (∃ rest, get_cultural_context "Atlantis" "winter" = "Atlantis" ++ rest) ∧
     get_local_vibes "Atlantis" = "Atlantis" ++ " local vibes and culture") :=
  ⟨⟨by decide, by decide, by decide⟩,
   c7_unknown_city_fallbacks "Atlantis" "winter" (by decide) (by decide) (by decide)⟩

/-! ## The primary-color selection loop -/

theorem saturation_nonneg (c : Color) : 0 ≤ saturation c := by
  unfold saturation
  dsimp only
  split
  · apply div_nonneg
    · rw [sub_nonneg]
      exact_mod_cast le_trans (Nat.min_le_left _ _) (Nat.le_max_left _ _)
    · positivity
  · exact le_refl 0

theorem primaryFold_snoc (l : List Color) (x : Color) :
    primaryFold (l ++ [x]) = primaryStep (primaryFold l) (l.length, x) := by
  unfold primaryFold
  rw [List.enum_append, List.foldl_append]
  rfl

theorem primaryFold_spec (colors : List Color) (hne : colors ≠ []) :
    (primaryFold colors).1 < colors.length ∧
    (∃ pc, colors.get? (primaryFold colors).1 = some pc ∧
      saturation pc = (primaryFold colors).2) ∧
    (∀ x ∈ colors, saturation x ≤ (primaryFold colors).2) ∧
    (∀ j, j < (primaryFold colors).1 →
      ∀ y, colors.get? j = some y → saturation y < (primaryFold colors).2) := by
  induction colors using List.reverseRecOn with
  | nil => exact absurd rfl hne
  | append_singleton l x ih =>
    rw [primaryFold_snoc]
    rcases eq_or_ne l [] with hl | hl
    · subst hl
      simp only [primaryFold, List.enum_nil, List.foldl_nil, primaryStep, List.nil_append,
        List.length_singleton]
      split
      · rename_i hgt
        refine ⟨by simp, ⟨x, by simp, rfl⟩, ?_, ?_⟩
        · intro y hy
          obtain rfl := List.mem_singleton.mp hy
          exact le_refl _
        · intro j hj
          exact absurd hj (by simp)
      · rename_i hle
        push_neg at hle
        have hx0 : saturation x = 0 := le_antisymm (by simpa using hle) (saturation_nonneg x)
        refine ⟨by simp, ⟨x, by simp, by simpa using hx0⟩, ?_, ?_⟩
        · intro y hy
          obtain rfl := List.mem_singleton.mp hy
          simpa using le_of_eq hx0
        · intro j hj
          exact absurd hj (by simp)
    · obtain ⟨hlt, ⟨pc, hpc, hsat⟩, hmax, hfirst⟩ := ih hl
      unfold primaryStep
      dsimp only
      split
      · rename_i hgt
        refine ⟨by simp, ⟨x, ?_, rfl⟩, ?_, ?_⟩
        · rw [List.get?_append_right (le_refl l.length)]
          simp
        · intro y hy
          rcases List.mem_append.mp hy with h | h
          · exact le_of_lt (lt_of_le_of_lt (hmax y h) hgt)
          · obtain rfl := List.mem_singleton.mp h
            exact le_refl _
        · intro j hj y hy
          rw [List.get?_append (by omega)] at hy
          exact lt_of_le_of_lt (hmax y (List.get?_mem hy)) hgt
      · rename_i hle
        push_neg at hle
        refine ⟨by simp only [List.length_append, List.length_singleton]; omega,
          ⟨pc, ?_, hsat⟩, ?_, ?_⟩
        · rw [List.get?_append hlt]
          exact hpc
        · intro y hy
          rcases List.mem_append.mp hy with h | h
          · exact hmax y h
          · obtain rfl := List.mem_singleton.mp h
            exact hle
        · intro j hj y hy
          rw [List.get?_append (by omega)] at hy
          exact hfirst j hj y hy

/-- The shape of the successful result of `get_brand_palette_info`, plus
the argmax properties of the selected primary color. -/
theorem get_brand_palette_info_ok (colors : List Color) (hne : colors ≠ []) :
    ∃ pc, colors.get? (primaryIdx colors) = some pc ∧
      (∀ x ∈ colors, saturation x ≤ saturation pc) ∧
      (∀ j, j < primaryIdx colors →
        ∀ y, colors.get? j = some y → saturation y < saturation pc) ∧
      get_brand_palette_info colors = Except.ok
        { colors := some colors
          hex_colors := colors.map rgb_to_hex
          primary_color := some pc
          primary_hex := rgb_to_hex pc
          is_dark_palette :=
            decide (((colors.countP (fun c => is_dark_color c) : ℚ)) >
              (colors.length : ℚ) / 2)
          color_descriptions := some ((colors.zip (colors.map rgb_to_hex)).map (fun p =>
            { rgb := p.1
              hex := p.2
              brightness := get_color_brightness p.1
              is_dark := is_dark_color p.1 })) } := by
  obtain ⟨hlt, ⟨pc, hpc, hsat⟩, hmax, hfirst⟩ := primaryFold_spec colors hne
  have hpc' : colors.get? (primaryIdx colors) = some pc := hpc
  refine ⟨pc, hpc', ?_, ?_, ?_⟩
  · intro x hx
    rw [hsat]
    exact hmax x hx
  · intro j hj y hy
    rw [hsat]
    exact hfirst j hj y hy
  · unfold get_brand_palette_info
    dsimp only
    have hhex : (colors.map rgb_to_hex).get? (primaryIdx colors) = some (rgb_to_hex pc) := by
      rw [List.get?_map, hpc']
      rfl
    rw [hpc', hhex]

/-! ## Claim C2 -/

/-- C2: on every non-empty color list, the selected primary color has
saturation at least that of every color in the list, and every color
strictly before it in input order has strictly smaller saturation (so the
first color attaining the maximum is selected). -/
theorem c2_primary_is_first_max_saturation (colors : List Color) (hne : colors ≠ []) :
    ∃ info, get_brand_palette_info colors = Except.ok info ∧
      ∃ pc i, info.primary_color = some pc ∧
        colors.get? i = some pc ∧
        (∀ x ∈ colors, saturation x ≤ saturation pc) ∧
        (∀ j, j < i → ∀ y, colors.get? j = some y → saturation y < saturation pc) := by
  obtain ⟨pc, hpc, hmax, hfirst, hok⟩ := get_brand_palette_info_ok colors hne
  exact ⟨_, hok, pc, primaryIdx colors, rfl, hpc, hmax, hfirst⟩

/-- Witness for C2: a list whose most saturated color sits at index 1. -/
theorem c2_primary_is_first_max_saturation_witness :
    ([(10, 10, 10), (255, 0, 0)] : List Color) ≠ [] ∧
    (∃ info, get_brand_palette_info [(10, 10, 10), (255, 0, 0)] = Except.ok info ∧
      ∃ pc i, info.primary_color = some pc ∧
        ([(10, 10, 10), (255, 0, 0)] : List Color).get? i = some pc ∧
        (∀ x ∈ ([(10, 10, 10), (255, 0, 0)] : List Color), saturation x ≤ saturation pc) ∧
        (∀ j, j < i → ∀ y, ([(10, 10, 10), (255, 0, 0)] : List Color).get? j = some y →
          saturation y < saturation pc)) :=
  ⟨by decide, c2_primary_is_first_max_saturation [(10, 10, 10), (255, 0, 0)] (by decide)⟩

/-! ## Claim C3 -/

theorem is_dark_color_decide_eq (rgb : Color) (t : Nat) :
    is_dark_color rgb t = decide (get_color_brightness rgb < (t : ℚ)) := by
  unfold is_dark_color get_color_brightness dval
  rw [decide_eq_decide]
  rw [div_lt_iff (by positivity)]
  constructor
  · intro h
    exact_mod_cast h
  · intro h
    exact_mod_cast h

/-- Counterexample to C3 as stated: the exact perceived brightness of
`(117,127,162)` is exactly 128 — not strictly below — so the claim requires
the singleton palette to be classified light; but the program's binary64
brightness is `128 - 2^-46 < 128`, the color counts as dark, and the
returned flag is `true`. -/
theorem c3_exact_boundary_counterexample :
    Except.map (fun info => info.is_dark_palette)
        (get_brand_palette_info [(117, 127, 162)]) = Except.ok true ∧
    specColorBrightness (117, 127, 162) = 128 ∧
    get_color_brightness (117, 127, 162) = 128 - 1 / 2 ^ 46 ∧
    ¬ 2 * ([(117, 127, 162)] : List Color).countP
        (fun c => decide (specColorBrightness c < 128)) >
      ([(117, 127, 162)] : List Color).length := by
  refine ⟨?_, ?_, ?_, ?_⟩
  · obtain ⟨pc, -, -, -, hok⟩ := get_brand_palette_info_ok [(117, 127, 162)] (by decide)
    rw [hok]
    have hcount :
        ([(117, 127, 162)] : List Color).countP (fun c => is_dark_color c) = 1 := by decide
    simp only [Except.map]
    rw [hcount]
    norm_num
  · norm_num [specColorBrightness]
  · have h : float64Brightness (117, 127, 162) = (9007199254740991, 46) := by decide
    unfold get_color_brightness
    rw [h]
    unfold dval
    norm_num
  · have hs : decide (specColorBrightness (117, 127, 162) < 128) = false := by
      have h128 : specColorBrightness (117, 127, 162) = 128 := by
        norm_num [specColorBrightness]
      rw [h128]
      exact decide_eq_false (lt_irrefl _)
    simp only [List.countP_cons, List.countP_nil, hs]
    decide

/-- C3 (amended): the dark-palette flag is true iff strictly more than half
of the colors have double-precision perceived brightness — the binary64
evaluation of `0.299*r + 0.587*g + 0.114*b`, which is what the program
computes — strictly below 128; an exact half yields `false`. -/
theorem c3_dark_flag_strict_majority (colors : List Color) (hne : colors ≠ []) :
    ∃ info, get_brand_palette_info colors = Except.ok info ∧
      (info.is_dark_palette = true ↔
        2 * colors.countP (fun c => is_dark_color c) > colors.length) ∧
      (2 * colors.countP (fun c => is_dark_color c) = colors.length →
        info.is_dark_palette = false) := by
  obtain ⟨pc, _, _, _, hok⟩ := get_brand_palette_info_ok colors hne
  refine ⟨_, hok, ?_, ?_⟩
  · simp only [decide_eq_true_eq]
    constructor
    · intro h
      have h2 : (colors.length : ℚ) < 2 * (colors.countP (fun c => is_dark_color c) : ℚ) := by
        rw [gt_iff_lt, div_lt_iff (by norm_num)] at h
        linarith
      exact_mod_cast h2
    · intro h
      have h2 : (colors.length : ℚ) < 2 * (colors.countP (fun c => is_dark_color c) : ℚ) := by
        exact_mod_cast h
      rw [gt_iff_lt, div_lt_iff (by norm_num)]
      linarith
  · intro h
    simp only [decide_eq_false_iff_not, gt_iff_lt, not_lt]
    rw [le_div_iff (by norm_num)]
    have h2 : (colors.length : ℚ) = 2 * (colors.countP (fun c => is_dark_color c) : ℚ) := by
      exact_mod_cast h.symm
    linarith

/-- Witness for C3: two colors, exactly one dark (an exact half), flag false. -/
theorem c3_dark_flag_strict_majority_witness :
    ([(0, 0, 0), (255, 255, 255)] : List Color) ≠ [] ∧
    (∃ info, get_brand_palette_info [(0, 0, 0), (255, 255, 255)] = Except.ok info ∧
      (info.is_dark_palette = true ↔
        2 * ([(0, 0, 0), (255, 255, 255)] : List Color).countP (fun c => is_dark_color c) >
          ([(0, 0, 0), (255, 255, 255)] : List Color).length) ∧
      (2 * ([(0, 0, 0), (255, 255, 255)] : List Color).countP (fun c => is_dark_color c) =
          ([(0, 0, 0), (255, 255, 255)] : List Color).length →
        info.is_dark_palette = false)) :=
  ⟨by decide, c3_dark_flag_strict_majority [(0, 0, 0), (255, 255, 255)] (by decide)⟩

/-! ## Claim C6 -/

/-- Counterexample to C6 as stated: on the empty list
`get_brand_palette_info` raises Python's built-in IndexError (from
`colors[primary_idx]`), not the `InvalidInputError` named by the spec — no
such class exists anywhere in the repository. -/
theorem c6_empty_list_raises_indexerror :
    get_brand_palette_info [] = Except.error PyErr.indexError ∧
    get_brand_palette_info [] ≠ Except.error PyErr.invalidInputError := by
  refine ⟨rfl, fun h => ?_⟩
  rw [show get_brand_palette_info [] = Except.error PyErr.indexError from rfl] at h
  injection h with h'
  exact absurd h' (by decide)

/-- C6 (amended): `get_brand_palette_info` is a pure total function on every
non-empty color list, and on the empty list it fails loudly with an
IndexError rather than returning a value. -/
theorem c6_total_on_nonempty (colors : List Color) (hne : colors ≠ []) :
    (∃ info, get_brand_palette_info colors = Except.ok info) ∧
    get_brand_palette_info [] = Except.error PyErr.indexError := by
  obtain ⟨pc, _, _, _, hok⟩ := get_brand_palette_info_ok colors hne
  exact ⟨⟨_, hok⟩, rfl⟩

/-- Witness for the amended C6 on a concrete singleton palette. -/
theorem c6_total_on_nonempty_witness :
    ([(102, 126, 234)] : List Color) ≠ [] ∧
    ((∃ info, get_brand_palette_info [(102, 126, 234)] = Except.ok info) ∧
     get_brand_palette_info [] = Except.error PyErr.indexError) :=
  ⟨by decide, c6_total_on_nonempty [(102, 126, 234)] (by decide)⟩

/-! ## Set-table lemmas for the palette merge -/

theorem setAddProbe_sub (x : Color) (t : SetTable) :
    ∀ (fuel i perturb : Nat) (z : Color),
      some z ∈ (setAddProbe x t fuel i perturb).1 → some z ∈ t ∨ z = x := by
  intro fuel
  induction fuel with
  | zero =>
    intro i perturb z hz
    exact .inl hz
  | succ n ih =>
    intro i perturb z hz
    simp only [setAddProbe] at hz
    cases hscan : scanAdd t x i (if i + 9 ≤ t.length - 1 then 9 else 0) with
    | foundUnused j =>
      rw [hscan] at hz
      dsimp only at hz
      rcases List.mem_or_eq_of_mem_set hz with h | h
      · exact .inl h
      · exact .inr (Option.some.inj h)
    | foundActive =>
      rw [hscan] at hz
      exact .inl hz
    | next =>
      rw [hscan] at hz
      exact ih _ _ z hz

theorem insertCleanProbe_sub (x : Color) (t : SetTable) :
    ∀ (fuel i perturb : Nat) (z : Color),
      some z ∈ insertCleanProbe x t fuel i perturb → some z ∈ t ∨ z = x := by
  intro fuel
  induction fuel with
  | zero =>
    intro i perturb z hz
    exact .inl hz
  | succ n ih =>
    intro i perturb z hz
    simp only [insertCleanProbe] at hz
    cases hscan : scanClean t i (if i + 9 ≤ t.length - 1 then 9 else 0) with
    | some j =>
      rw [hscan] at hz
      dsimp only at hz
      rcases List.mem_or_eq_of_mem_set hz with h | h
      · exact .inl h
      · exact .inr (Option.some.inj h)
    | none =>
      rw [hscan] at hz
      exact ih _ _ z hz

theorem insertClean_sub (t : SetTable) (x : Color) (z : Color)
    (hz : some z ∈ insertClean t x) : some z ∈ t ∨ z = x := by
  unfold insertClean at hz
  exact insertCleanProbe_sub x t _ _ _ z hz

theorem foldl_table_sub (f : SetTable → Color → SetTable)
    (hf : ∀ t x z, some z ∈ f t x → some z ∈ t ∨ z = x) :
    ∀ (l : List Color) (t0 : SetTable) (z : Color),
      some z ∈ l.foldl f t0 → some z ∈ t0 ∨ z ∈ l := by
  intro l
  induction l with
  | nil =>
    intro t0 z hz
    exact .inl hz
  | cons a as ih =>
    intro t0 z hz
    rcases ih (f t0 a) z hz with h | h
    · rcases hf t0 a z h with h' | h'
      · exact .inl h'
      · exact .inr (by rw [h']; exact List.mem_cons_self a as)
    · exact .inr (List.mem_cons_of_mem a h)

theorem setResize_sub (t : SetTable) (m : Nat) (z : Color)
    (hz : some z ∈ setResize t m) : some z ∈ t := by
  unfold setResize at hz
  rcases foldl_table_sub insertClean insertClean_sub _ _ _ hz with h | h
  · have := List.eq_of_mem_replicate h
    exact absurd this (by simp)
  · obtain ⟨a, ha, hid⟩ := List.mem_filterMap.mp h
    rw [show id a = a from rfl] at hid
    rw [hid] at ha
    exact ha

theorem setAddKey_sub (t : SetTable) (x : Color) (z : Color)
    (hz : some z ∈ setAddKey t x) : some z ∈ t ∨ z = x := by
  unfold setAddKey at hz
  dsimp only at hz
  have ht' : ∀ w, some w ∈ (setAddProbe x t 1000 (pyHashTriple x % t.length) (pyHashTriple x)).1 →
      some w ∈ t ∨ w = x := fun w hw => setAddProbe_sub x t 1000 _ _ w hw
  rcases hp : setAddProbe x t 1000 (pyHashTriple x % t.length) (pyHashTriple x) with ⟨t', ins⟩
  rw [hp] at hz
  have ht'' : ∀ w, some w ∈ t' → some w ∈ t ∨ w = x := by
    intro w hw
    exact ht' w (by rw [hp]; exact hw)
  cases ins with
  | false =>
    exact ht'' z hz
  | true =>
    dsimp only at hz
    split at hz
    · exact ht'' z hz
    · exact ht'' z (setResize_sub _ _ _ hz)

theorem pySetList_sub (xs : List Color) (z : Color) (hz : z ∈ pySetList xs) : z ∈ xs := by
  unfold pySetList at hz
  obtain ⟨a, ha, hid⟩ := List.mem_filterMap.mp hz
  rw [show id a = a from rfl] at hid
  rw [hid] at ha
  rcases foldl_table_sub setAddKey setAddKey_sub xs _ _ ha with h | h
  · have := List.eq_of_mem_replicate h
    exact absurd this (by simp)
  · exact h

/-! ## Claim C5 -/

/-- Counterexample to C5 as stated: with one logo color and one product
color the merged list comes back in hash-table order, which here reverses
the insertion order the spec prescribes.  `(255,0,0)` hashes to slot 4 of
the fresh 8-slot CPython set table and `(0,255,0)` to slot 2, so the set
iterates the product color first. -/
theorem c5_merge_order_not_insertion :
    combinedColors [(255, 0, 0)] [(0, 255, 0)] = [(0, 255, 0), (255, 0, 0)] ∧
    specCombinedColors [(255, 0, 0)] [(0, 255, 0)] = [(255, 0, 0), (0, 255, 0)] ∧
    combinedColors [(255, 0, 0)] [(0, 255, 0)] ≠
      specCombinedColors [(255, 0, 0)] [(0, 255, 0)] := by
  refine ⟨by decide, by decide, ?_⟩
  intro h
  rw [show combinedColors [(255, 0, 0)] [(0, 255, 0)] = [(0, 255, 0), (255, 0, 0)] by decide,
    show specCombinedColors [(255, 0, 0)] [(0, 255, 0)] = [(255, 0, 0), (0, 255, 0)] by decide]
      at h
  exact absurd h (by decide)

/-- C5 (amended): the merged brand palette is computed from the Python set
of the first-3 prefixes of the two palettes, capped to 5 colors: it has at
most 5 colors and every color in it comes from those prefixes.  Its order
is the set's hash-based iteration order, not necessarily the insertion
order of the deduplicated union. -/
theorem c5_merge_cap_and_membership (logoColors productColors : List Color) :
    (combinedColors logoColors productColors).length ≤ 5 ∧
    ∀ c ∈ combinedColors logoColors productColors,
      c ∈ logoColors.take 3 ++ productColors.take 3 := by
  constructor
  · unfold combinedColors
    exact List.length_take_le _ _
  · intro c hc
    exact pySetList_sub _ c (List.mem_of_mem_take hc)

/-! ## Claim C8 -/

theorem hexChar_spec {c : Char} (h : c ∈ lowerHexDigits) :
    ∃ v, hexDigitVal c = some v ∧ v < 16 ∧ hexDigitChar v = c ∧ (c == '#') = false := by
  fin_cases h <;> exact ⟨_, rfl, by decide, by decide, by decide⟩

set_option maxRecDepth 4000 in
theorem format02x_eq :
    ∀ n, n < 256 → format02x n = String.mk [hexDigitChar (n / 16), hexDigitChar (n % 16)] := by
  decide

/-- C8: `rgb_to_hex (hex_to_rgb s) = s` for every well-formed 7-character
lowercase hex color string (a `#` followed by six lowercase hex digits). -/
theorem c8_hex_rgb_roundtrip (a b c d e f : Char)
    (ha : a ∈ lowerHexDigits) (hb : b ∈ lowerHexDigits) (hc : c ∈ lowerHexDigits)
    (hd : d ∈ lowerHexDigits) (he : e ∈ lowerHexDigits) (hf : f ∈ lowerHexDigits) :
    Option.map rgb_to_hex (hex_to_rgb (String.mk ['#', a, b, c, d, e, f])) =
      some (String.mk ['#', a, b, c, d, e, f]) := by
  obtain ⟨va, hva, hva16, hvac, hane⟩ := hexChar_spec ha
  obtain ⟨vb, hvb, hvb16, hvbc, -⟩ := hexChar_spec hb
  obtain ⟨vc, hvc, hvc16, hvcc, -⟩ := hexChar_spec hc
  obtain ⟨vd, hvd, hvd16, hvdc, -⟩ := hexChar_spec hd
  obtain ⟨ve, hve, hve16, hvec, -⟩ := hexChar_spec he
  obtain ⟨vf, hvf, hvf16, hvfc, -⟩ := hexChar_spec hf
  have hdrop : (String.mk ['#', a, b, c, d, e, f]).data.dropWhile (· == '#') =
      [a, b, c, d, e, f] := by
    show List.dropWhile (· == '#') ('#' :: [a, b, c, d, e, f]) = [a, b, c, d, e, f]
    simp [List.dropWhile, hane]
  have hr : parseHex (pySlice [a, b, c, d, e, f] 0 2) = some (va * 16 + vb) := by
    show parseHex [a, b] = some (va * 16 + vb)
    simp [parseHex, parseHexCore, hva, hvb]
  have hg : parseHex (pySlice [a, b, c, d, e, f] 2 4) = some (vc * 16 + vd) := by
    show parseHex [c, d] = some (vc * 16 + vd)
    simp [parseHex, parseHexCore, hvc, hvd]
  have hbl : parseHex (pySlice [a, b, c, d, e, f] 4 6) = some (ve * 16 + vf) := by
    show parseHex [e, f] = some (ve * 16 + vf)
    simp [parseHex, parseHexCore, hve, hvf]
  have hrgb : hex_to_rgb (String.mk ['#', a, b, c, d, e, f]) =
      some (va * 16 + vb, vc * 16 + vd, ve * 16 + vf) := by
    unfold hex_to_rgb
    dsimp only
    rw [hdrop, hr, hg, hbl]
  rw [hrgb]
  show some (rgb_to_hex (va * 16 + vb, vc * 16 + vd, ve * 16 + vf)) = _
  unfold rgb_to_hex
  dsimp only
  rw [format02x_eq _ (by omega), format02x_eq _ (by omega), format02x_eq _ (by omega)]
  have d1 : (va * 16 + vb) / 16 = va := by omega
  have m1 : (va * 16 + vb) % 16 = vb := by omega
  have d2 : (vc * 16 + vd) / 16 = vc := by omega
  have m2 : (vc * 16 + vd) % 16 = vd := by omega
  have d3 : (ve * 16 + vf) / 16 = ve := by omega
  have m3 : (ve * 16 + vf) % 16 = vf := by omega
  rw [d1, m1, d2, m2, d3, m3, hvac, hvbc, hvcc, hvdc, hvec, hvfc]
  rfl

/-- Witness for C8 on the concrete string `"#1a2b3c"`. -/
theorem c8_hex_rgb_roundtrip_witness :
    ('1' ∈ lowerHexDigits ∧ 'a' ∈ lowerHexDigits ∧ '2' ∈ lowerHexDigits ∧
     'b' ∈ lowerHexDigits ∧ '3' ∈ lowerHexDigits ∧ 'c' ∈ lowerHexDigits) ∧
    Option.map rgb_to_hex (hex_to_rgb (String.mk ['#', '1', 'a', '2', 'b', '3', 'c'])) =
      some (String.mk ['#', '1', 'a', '2', 'b', '3', 'c']) :=
  ⟨⟨by decide, by decide, by decide, by decide, by decide, by decide⟩,
   c8_hex_rgb_roundtrip '1' 'a' '2' 'b' '3' 'c'
     (by decide) (by decide) (by decide) (by decide) (by decide) (by decide)⟩

/-! ## Claim C9 -/

theorem strData_append (s t : String) : (s ++ t).data = s.data ++ t.data := by
  cases s with
  | mk l =>
    cases t with
    | mk m => rfl

theorem clause_eq_head_absurd {s hx : String} (he : clauseUsingColor hx = s)
    (ch : Char) (hC : strHead? s = some ch) (hne : ch ≠ 'u') : False := by
  have hu : strHead? (clauseUsingColor hx) = some 'u' := rfl
  rw [he, hC] at hu
  exact hne (Option.some.inj hu)

theorem clauseUsingColor_inj {h1 h2 : String}
    (h : clauseUsingColor h1 = clauseUsingColor h2) : h1 = h2 := by
  unfold clauseUsingColor at h
  have h' := congrArg String.data h
  rw [strData_append, strData_append, strData_append, strData_append] at h'
  have h'' := List.append_cancel_left (List.append_cancel_right h')
  cases h1 with
  | mk l1 =>
    cases h2 with
    | mk l2 => exact congrArg String.mk (h'' : l1 = l2)

theorem get_style_modifiers_head (b : PromptBrandInfo) (c : PromptContext) :
    ∃ ch, strHead? (get_style_modifiers b c) = some ch ∧ ch ≠ 'u' := by
  unfold get_style_modifiers
  dsimp only
  repeat' split
  all_goals exact ⟨_, rfl, by decide⟩

/-- C9 (amended): the color clause `"using {hex} as the main brand color"`
occurs among the comma-joined prompt parts exactly when the brand palette is
present and its hex list's first entry is a non-empty string, and then
`{hex}` is that first entry; the fixed trailing sentence is always appended
to the joined parts. -/
theorem c9_clause_iff_first_hex (b : PromptBrandInfo) (c : PromptContext) :
    (∀ hx : String,
      clauseUsingColor hx ∈ buildPromptParts b c ↔
        ∃ pal, b.brand_palette = some pal ∧
          ∃ rest, pal.hex_colors = hx :: rest ∧ hx ≠ "") ∧
    ∃ p, build_prompt b c = p ++ trailingSentence := by
  constructor
  · intro hx
    constructor
    · intro hmem
      unfold buildPromptParts at hmem
      dsimp only at hmem
      rcases List.mem_append.mp hmem with h5 | hStyle
      rotate_left
      · split at hStyle
        · obtain ⟨ch, hch, hchu⟩ := get_style_modifiers_head b c
          exact (clause_eq_head_absurd (List.mem_singleton.mp hStyle) ch hch hchu).elim
        · exact absurd hStyle (List.not_mem_nil _)
      rcases List.mem_append.mp h5 with h4 | hPC
      rotate_left
      · cases hbp : b.brand_palette with
        | none =>
          rw [hbp] at hPC
          exact absurd hPC (List.not_mem_nil _)
        | some pal =>
          rw [hbp] at hPC
          dsimp only at hPC
          cases hpx : pal.hex_colors with
          | nil =>
            rw [hpx] at hPC
            exact absurd hPC (List.not_mem_nil _)
          | cons h0 rest =>
            rw [hpx] at hPC
            dsimp only at hPC
            split at hPC
            · rename_i hh0
              have he := clauseUsingColor_inj (List.mem_singleton.mp hPC)
              subst he
              exact ⟨pal, rfl, rest, hpx, hh0⟩
            · exact absurd hPC (List.not_mem_nil _)
      rcases List.mem_append.mp h4 with h3 | hMood
      rotate_left
      · split at hMood
        · exact (clause_eq_head_absurd (List.mem_singleton.mp hMood) 'w' rfl (by decide)).elim
        · exact absurd hMood (List.not_mem_nil _)
      rcases List.mem_append.mp h3 with h2 | hTheme
      rotate_left
      · split at hTheme
        · exact (clause_eq_head_absurd (List.mem_singleton.mp hTheme) 'i' rfl (by decide)).elim
        · exact absurd hTheme (List.not_mem_nil _)
      rcases List.mem_append.mp h2 with hP | hHero
      rotate_left
      · exact (clause_eq_head_absurd (List.mem_singleton.mp hHero) 't' rfl (by decide)).elim
      · split at hP <;>
          exact (clause_eq_head_absurd (List.mem_singleton.mp hP) 'C' rfl (by decide)).elim
    · rintro ⟨pal, hbp, rest, hpx, hne⟩
      unfold buildPromptParts
      dsimp only
      rw [hbp]
      dsimp only
      rw [hpx]
      dsimp only
      simp [hne]
  · exact ⟨_, rfl⟩

/-- Counterexample to C9 as stated: a brand profile with an empty palette
whose brand name itself contains the clause text.  The rendered prompt
contains `"using #123456 as the main brand color"` although the brand
palette has no hex entry at all. -/
theorem c9_clause_without_palette :
    strContains
      (build_prompt
        { brand_name := some "Brand using #123456 as the main brand color",
          product_category := none, brand_palette := none }
        { city := none, theme := none, mood := none, weather := none, time_of_day := none })
      (clauseUsingColor "#123456") = true ∧
    ({ brand_name := some "Brand using #123456 as the main brand color",
       product_category := none, brand_palette := none } : PromptBrandInfo).brand_palette =
      none := by
  exact ⟨by decide, rfl⟩

end UiDeployment
